import Mathlib

/-!
Shallow embedding of the two AWS demo scripts `src/p1.js` and
`src/unnamed/part_000`.  Each script is a linear async driver issuing cloud
provider calls.  We model a run as a trace of events (provider calls, console
logs, sleeps) produced from an environment of provider responses; a thrown
JS exception is modelled as an `err` result carrying the events emitted
before the throw.
-/

set_option maxHeartbeats 1000000

/-- JS truthiness of an optional boolean: `undefined` and `false` are falsy. -/
def truthy : Option Bool → Bool
  | some b => b
  | none => false

/-- JS template-string rendering of a possibly-undefined string. -/
def jsShow : Option String → String
  | some s => s
  | none => "undefined"

/-- EC2 instance state (`instance.State`). -/
structure InstanceState where
  Name : Option String
deriving DecidableEq, Repr

/-- An EC2 instance record as returned by the SDK. -/
structure Instance where
  InstanceId : Option String
  State : Option InstanceState
deriving DecidableEq, Repr

/-- Response of `RunInstancesCommand`. -/
structure RunInstancesResponse where
  Instances : Option (List Instance)
deriving DecidableEq, Repr

/-- Response of `CreateQueueCommand`. -/
structure CreateQueueResponse where
  QueueUrl : Option String
deriving DecidableEq, Repr

/-- A reservation in a `DescribeInstancesCommand` response. -/
structure Reservation where
  Instances : Option (List Instance)
deriving DecidableEq, Repr

/-- Response of `DescribeInstancesCommand`. -/
structure DescribeInstancesResponse where
  Reservations : Option (List Reservation)
deriving DecidableEq, Repr

/-- A bucket record in a `ListBucketsCommand` response. -/
structure Bucket where
  Name : Option String
deriving DecidableEq, Repr

/-- Response of `ListBucketsCommand`. -/
structure ListBucketsResponse where
  Buckets : Option (List Bucket)
deriving DecidableEq, Repr

/-- Response of `ListQueuesCommand`. -/
structure ListQueuesResponse where
  QueueUrls : Option (List String)
deriving DecidableEq, Repr

/-- The queue attribute map requested by `checkSQSMessages`. -/
structure QueueAttributes where
  ApproximateNumberOfMessages : Option String
deriving DecidableEq, Repr

/-- Response of `GetQueueAttributesCommand`. -/
structure GetQueueAttributesResponse where
  Attributes : Option QueueAttributes
deriving DecidableEq, Repr

/-- A message attribute value (`DataType`/`StringValue`). -/
structure MessageAttributeValue where
  DataType : Option String
  StringValue : Option String
deriving DecidableEq, Repr

/-- A received SQS message. -/
structure Message where
  MessageAttributes : Option (List (String × MessageAttributeValue))
  Body : Option String
  ReceiptHandle : Option String
deriving DecidableEq, Repr

/-- Response of `ReceiveMessageCommand`. -/
structure ReceiveMessageResponse where
  Messages : Option (List Message)
deriving DecidableEq, Repr

/-- An object record in a `ListObjectsV2Command` response page. -/
structure S3Object where
  Key : Option String
deriving DecidableEq, Repr

/-- Response page of `ListObjectsV2Command`. -/
structure ListObjectsV2Response where
  Contents : Option (List S3Object)
  IsTruncated : Option Bool
  NextContinuationToken : Option String
deriving DecidableEq, Repr

/-- JS property access `message.MessageAttributes.Title`: yields `none` both
when the attribute map is `undefined` and when the key is absent (either way
the subsequent `.StringValue` access throws). -/
def lookupAttr (attrs : Option (List (String × MessageAttributeValue)))
    (key : String) : Option MessageAttributeValue :=
  attrs.bind (fun l => l.lookup key)

/-- A provider call issued by the scripts, with the request parameters the
scripts actually pass. -/
inductive Call where
  | runInstances (imageId : String)
  | createBucket (bucket : String)
  | createQueue (queueName : String)
  | describeInstances
  | listBuckets
  | listQueues
  | putObject (bucket key body : String)
  | sendMessage (queueUrl : Option String) (body attrTitle : String)
  | getQueueAttributes (queueUrl : Option String)
  | receiveMessage (queueUrl : Option String) (maxMessages : Nat)
  | deleteMessage (queueUrl : Option String) (receiptHandle : Option String)
  | listObjectsV2 (bucket : String) (continuationToken : Option String)
  | deleteObject (bucket : String) (key : Option String)
  | terminateInstances (instanceIds : List (Option String))
  | deleteBucket (bucket : String)
  | deleteQueue (queueUrl : Option String)
deriving DecidableEq, Repr

/-- An observable event of a run: a provider call, a console log, or a sleep. -/
inductive Event where
  | call (c : Call)
  | log (s : String)
  | sleep (ms : Nat)
deriving DecidableEq, Repr

/-- Result of running a code fragment: the trace of events it emitted, and
either a value (normal completion) or an error (a rejected promise or a
thrown `TypeError`, which propagates). -/
inductive Res (α : Type) where
  | ok : List Event → α → Res α
  | err : List Event → Res α
deriving DecidableEq, Repr

/-- Prepend already-emitted events onto a result. -/
def Res.push (es : List Event) : Res α → Res α
  | .ok es2 a => .ok (es ++ es2) a
  | .err es2 => .err (es ++ es2)

/-- Sequencing: on error the continuation never runs. -/
def Res.bind : Res α → (α → Res β) → Res β
  | .ok es a, f => Res.push es (f a)
  | .err es, _ => .err es

instance : Monad Res where
  pure a := .ok [] a
  bind := Res.bind

/-- The events emitted by a run, whether it completed or threw. -/
def Res.events : Res α → List Event
  | .ok es _ => es
  | .err es => es

/-- `console.log`. -/
def logE (s : String) : Res Unit := Res.ok [Event.log s] ()

/-- `await sleep(ms)`. -/
def sleepE (ms : Nat) : Res Unit := Res.ok [Event.sleep ms] ()

/-- `await client.send(command)`: the call event is emitted whether the
provider accepts or rejects it; a rejection becomes an error result. -/
def provCall (c : Call) : Except Unit α → Res α
  | .ok a => Res.ok [Event.call c] a
  | .error _ => Res.err [Event.call c]

/-- Provider responses consumed by one `listResources` invocation. -/
structure ListResourcesEnv where
  describeInstances : Except Unit DescribeInstancesResponse
  listBuckets : Except Unit ListBucketsResponse
  listQueues : Except Unit ListQueuesResponse

/-- Provider responses consumed by one `deleteResources` invocation: the
successive `ListObjectsV2` pages, the per-key outcome of each object delete,
and the outcomes of the three teardown calls.  An exhausted page list is
modelled as the next listing call being rejected. -/
structure DeleteResourcesEnv where
  pages : List (Except Unit ListObjectsV2Response)
  deleteObject : Option String → Except Unit Unit
  terminateInstances : Except Unit Unit
  deleteBucket : Except Unit Unit
  deleteQueue : Except Unit Unit

/-- Provider responses for a whole run of `main`.  `now1`/`now2` are the two
`Date.now()` reads used to name the bucket and the queue. -/
structure Env where
  now1 : Nat
  now2 : Nat
  runInstances : Except Unit RunInstancesResponse
  createBucket : Except Unit Unit
  createQueue : Except Unit CreateQueueResponse
  list1 : ListResourcesEnv
  putObject : Except Unit Unit
  sendMessage : Except Unit Unit
  check1 : Except Unit GetQueueAttributesResponse
  receive : Except Unit ReceiveMessageResponse
  deleteMessage : Except Unit Unit
  check2 : Except Unit GetQueueAttributesResponse
  del : DeleteResourcesEnv
  list2 : ListResourcesEnv

namespace P1

/-- The hardcoded AMI constant of `src/p1.js`. -/
def ami : String := "ami-0d53d72369335a9d6"

/-- `createResources` (src/p1.js, lines 18-47): run one instance, create a
bucket and a queue named from `Date.now()`, sleep one minute, and return the
three identifiers.  `ec2Response.Instances[0].InstanceId` throws when
`Instances` is absent or empty. -/
def createResources (a : String) (env : Env) :
    Res (Option String × String × Option String) := do
  logE "Creating resources..."
  let ec2Response ← provCall (Call.runInstances a) env.runInstances
  match ec2Response.Instances with
  | none => Res.err []
  | some [] => Res.err []
  | some (inst :: _) => do
    let instanceId := inst.InstanceId
    logE ("EC2 instance created with ID: " ++ jsShow instanceId)
    let bucketName := "my-test-bucket-" ++ toString env.now1
    provCall (Call.createBucket bucketName) env.createBucket
    logE ("S3 bucket created: " ++ bucketName)
    let queueName := "my-test-queue-" ++ toString env.now2
    let sqsResponse ← provCall (Call.createQueue queueName) env.createQueue
    let queueUrl := sqsResponse.QueueUrl
    logE ("SQS queue created: " ++ jsShow queueUrl)
    logE "Resources created, waiting for 1 minute..."
    sleepE 60000
    pure (instanceId, bucketName, queueUrl)

/-- The inner `forEach` over a reservation's instances (src/p1.js, lines
57-61): reading `instance.State.Name` throws when `State` is absent; only
running instances are printed. -/
def logInstances : List Instance → Res Unit
  | [] => pure ()
  | inst :: rest =>
    match inst.State with
    | none => Res.err []
    | some st =>
      if st.Name = some "running" then do
        logE ("  " ++ jsShow inst.InstanceId)
        logInstances rest
      else
        logInstances rest

/-- The `forEach` over reservations (src/p1.js, lines 56-62):
`reservation.Instances.forEach` throws when `Instances` is absent. -/
def logReservations : List Reservation → Res Unit
  | [] => pure ()
  | r :: rest =>
    match r.Instances with
    | none => Res.err []
    | some insts => do
      logInstances insts
      logReservations rest

/-- `listResources` (src/p1.js, lines 49-77): the three listing calls; the
optional chaining `?.forEach` skips absent `Reservations`, `Buckets` and
`QueueUrls`. -/
def listResources (env : ListResourcesEnv) : Res Unit := do
  logE "Listing resources..."
  let ec2Response ← provCall Call.describeInstances env.describeInstances
  logE "EC2 Instances:"
  match ec2Response.Reservations with
  | none => pure ()
  | some rs => logReservations rs
  let s3Response ← provCall Call.listBuckets env.listBuckets
  logE "S3 Buckets:"
  match s3Response.Buckets with
  | none => pure ()
  | some bs => Res.ok (bs.map (fun b => Event.log ("  " ++ jsShow b.Name))) ()
  let sqsResponse ← provCall Call.listQueues env.listQueues
  logE "SQS Queues:"
  match sqsResponse.QueueUrls with
  | none => pure ()
  | some qs => Res.ok (qs.map (fun u => Event.log ("  " ++ u))) ()

/-- `uploadFileToS3` (src/p1.js, lines 79-88). -/
def uploadFileToS3 (bucketName : String) (r : Except Unit Unit) : Res Unit := do
  logE "Uploading file to S3..."
  provCall (Call.putObject bucketName "CSE546test.txt" "") r
  logE "File uploaded to S3"

/-- `sendMessageToSQS` (src/p1.js, lines 90-104). -/
def sendMessageToSQS (queueUrl : Option String) (r : Except Unit Unit) :
    Res Unit := do
  logE "Sending message to SQS..."
  provCall (Call.sendMessage queueUrl "This is a test message" "test message") r
  logE "Message sent to SQS"

/-- `checkSQSMessages` (src/p1.js, lines 106-113): reading
`response.Attributes.ApproximateNumberOfMessages` throws when `Attributes`
is absent. -/
def checkSQSMessages (queueUrl : Option String)
    (r : Except Unit GetQueueAttributesResponse) : Res Unit := do
  let response ← provCall (Call.getQueueAttributes queueUrl) r
  match response.Attributes with
  | none => Res.err []
  | some attrs =>
    logE ("Number of messages in SQS queue: " ++
      jsShow attrs.ApproximateNumberOfMessages)

/-- `receiveSQSMessage` (src/p1.js, lines 115-136): receive up to one
message; if a message came back, print its `Title` attribute (throwing when
the attribute map or the `Title` key is absent) and its body, then delete it
by receipt handle; otherwise log that the queue is empty. -/
def receiveSQSMessage (queueUrl : Option String)
    (recv : Except Unit ReceiveMessageResponse) (del : Except Unit Unit) :
    Res Unit := do
  logE "Receiving message from SQS..."
  let response ← provCall (Call.receiveMessage queueUrl 1) recv
  match response.Messages with
  | some (message :: _) =>
    match lookupAttr message.MessageAttributes "Title" with
    | none => Res.err []
    | some title => do
      logE ("Message title: " ++ jsShow title.StringValue)
      logE ("Message body: " ++ jsShow message.Body)
      provCall (Call.deleteMessage queueUrl message.ReceiptHandle) del
  | _ => logE "No messages in the queue"

/-- The inner `for` over one listing page's `Contents` (src/p1.js, lines
153-160): delete each object individually and log it; a rejected delete
propagates. -/
def deleteObjectsInPage (bucketName : String)
    (d : Option String → Except Unit Unit) : List S3Object → Res Unit
  | [] => pure ()
  | o :: rest => do
    provCall (Call.deleteObject bucketName o.Key) (d o.Key)
    logE ("Deleted object: " ++ jsShow o.Key)
    deleteObjectsInPage bucketName d rest

/-- The `if (listResponse.Contents)` guard (src/p1.js, line 152): an absent
`Contents` skips the per-object loop (an empty array still enters it and
deletes nothing). -/
def handleContents (bucketName : String)
    (d : Option String → Except Unit Unit) :
    Option (List S3Object) → Res Unit
  | some objs => deleteObjectsInPage bucketName d objs
  | none => pure ()

/-- The `while (isTruncated)` purge loop (src/p1.js, lines 141-165): list a
page with the current continuation token, delete its objects, and continue
with `NextContinuationToken` exactly when `IsTruncated` is truthy. -/
def purgeLoop (bucketName : String) (d : Option String → Except Unit Unit) :
    Option String → List (Except Unit ListObjectsV2Response) → Res Unit
  | token, [] => Res.err [Event.call (Call.listObjectsV2 bucketName token)]
  | token, p :: rest => do
    let listResponse ← provCall (Call.listObjectsV2 bucketName token) p
    handleContents bucketName d listResponse.Contents
    if truthy listResponse.IsTruncated then
      purgeLoop bucketName d listResponse.NextContinuationToken rest
    else
      pure ()

/-- The teardown tail of `deleteResources` (src/p1.js, lines 167-177):
terminate the instance, delete the bucket, delete the queue. -/
def terminateAndDelete (instanceId : Option String) (bucketName : String)
    (queueUrl : Option String) (env : DeleteResourcesEnv) : Res Unit := do
  provCall (Call.terminateInstances [instanceId]) env.terminateInstances
  logE ("EC2 instance " ++ jsShow instanceId ++ " termination initiated")
  provCall (Call.deleteBucket bucketName) env.deleteBucket
  logE ("S3 bucket " ++ bucketName ++ " deleted")
  provCall (Call.deleteQueue queueUrl) env.deleteQueue
  logE ("SQS queue " ++ jsShow queueUrl ++ " deleted")

/-- `deleteResources` (src/p1.js, lines 138-178): purge all objects, then
terminate the instance and delete the bucket and the queue. -/
def deleteResources (instanceId : Option String) (bucketName : String)
    (queueUrl : Option String) (env : DeleteResourcesEnv) : Res Unit := do
  logE "Deleting resources..."
  purgeLoop bucketName env.deleteObject none env.pages
  terminateAndDelete instanceId bucketName queueUrl env

/-- The body of `main`'s `try` block (src/p1.js, lines 181-198). -/
def mainBody (a : String) (env : Env) : Res Unit := do
  let ids ← createResources a env
  let instanceId := ids.1
  let bucketName := ids.2.1
  let queueUrl := ids.2.2
  listResources env.list1
  uploadFileToS3 bucketName env.putObject
  sendMessageToSQS queueUrl env.sendMessage
  checkSQSMessages queueUrl env.check1
  receiveSQSMessage queueUrl env.receive env.deleteMessage
  checkSQSMessages queueUrl env.check2
  logE "Waiting for 10 seconds..."
  sleepE 10000
  deleteResources instanceId bucketName queueUrl env.del
  logE "Waiting for 1 minute..."
  sleepE 60000
  listResources env.list2

/-- `main` (src/p1.js, lines 180-202): the single top-level `catch` logs a
generic message; the process never rethrows. -/
def main (a : String) (env : Env) : List Event :=
  match mainBody a env with
  | Res.ok es _ => es
  | Res.err es => es ++ [Event.log "An error occurred:"]

end P1

namespace Part000

/-- The hardcoded AMI constant of `src/unnamed/part_000`. -/
def ami : String := "ami-0e86e20dae9224db8"

/-- `createResources` (src/unnamed/part_000, lines 28-60): identical to the
p1.js routine apart from the AMI constant, which is a parameter here. -/
def createResources (a : String) (env : Env) :
    Res (Option String × String × Option String) := do
  logE "Creating resources..."
  let ec2Response ← provCall (Call.runInstances a) env.runInstances
  match ec2Response.Instances with
  | none => Res.err []
  | some [] => Res.err []
  | some (inst :: _) => do
    let instanceId := inst.InstanceId
    logE ("EC2 instance created with ID: " ++ jsShow instanceId)
    let bucketName := "my-test-bucket-" ++ toString env.now1
    provCall (Call.createBucket bucketName) env.createBucket
    logE ("S3 bucket created: " ++ bucketName)
    let queueName := "my-test-queue-" ++ toString env.now2
    let sqsResponse ← provCall (Call.createQueue queueName) env.createQueue
    let queueUrl := sqsResponse.QueueUrl
    logE ("SQS queue created: " ++ jsShow queueUrl)
    logE "Resources created, waiting for 1 minute..."
    sleepE 60000
    pure (instanceId, bucketName, queueUrl)

/-- The `forEach` over reservations (src/unnamed/part_000, lines 69-73):
every instance ID is printed, with no running-state filter; reading
`reservation.Instances.forEach` throws when `Instances` is absent. -/
def logReservations : List Reservation → Res Unit
  | [] => pure ()
  | r :: rest =>
    match r.Instances with
    | none => Res.err []
    | some insts => do
      Res.ok (insts.map (fun i => Event.log ("  " ++ jsShow i.InstanceId))) ()
      logReservations rest

/-- `listResources` (src/unnamed/part_000, lines 62-90): unlike p1.js there
is no optional chaining, so an absent `Reservations`, `Buckets` or
`QueueUrls` field throws. -/
def listResources (env : ListResourcesEnv) : Res Unit := do
  logE "Listing resources..."
  let ec2Response ← provCall Call.describeInstances env.describeInstances
  logE "EC2 Instances:"
  match ec2Response.Reservations with
  | none => Res.err []
  | some rs => logReservations rs
  let s3Response ← provCall Call.listBuckets env.listBuckets
  logE "S3 Buckets:"
  match s3Response.Buckets with
  | none => Res.err []
  | some bs => Res.ok (bs.map (fun b => Event.log ("  " ++ jsShow b.Name))) ()
  let sqsResponse ← provCall Call.listQueues env.listQueues
  logE "SQS Queues:"
  match sqsResponse.QueueUrls with
  | none => Res.err []
  | some qs => Res.ok (qs.map (fun u => Event.log ("  " ++ u))) ()

/-- `uploadFileToS3` (src/unnamed/part_000, lines 92-101). -/
def uploadFileToS3 (bucketName : String) (r : Except Unit Unit) : Res Unit := do
  logE "Uploading file to S3..."
  provCall (Call.putObject bucketName "CSE546test.txt" "") r
  logE "File uploaded to S3"

/-- `sendMessageToSQS` (src/unnamed/part_000, lines 103-117). -/
def sendMessageToSQS (queueUrl : Option String) (r : Except Unit Unit) :
    Res Unit := do
  logE "Sending message to SQS..."
  provCall (Call.sendMessage queueUrl "This is a test message" "test message") r
  logE "Message sent to SQS"

/-- `checkSQSMessages` (src/unnamed/part_000, lines 119-126). -/
def checkSQSMessages (queueUrl : Option String)
    (r : Except Unit GetQueueAttributesResponse) : Res Unit := do
  let response ← provCall (Call.getQueueAttributes queueUrl) r
  match response.Attributes with
  | none => Res.err []
  | some attrs =>
    logE ("Number of messages in SQS queue: " ++
      jsShow attrs.ApproximateNumberOfMessages)

/-- `receiveSQSMessage` (src/unnamed/part_000, lines 128-150). -/
def receiveSQSMessage (queueUrl : Option String)
    (recv : Except Unit ReceiveMessageResponse) (del : Except Unit Unit) :
    Res Unit := do
  logE "Receiving message from SQS..."
  let response ← provCall (Call.receiveMessage queueUrl 1) recv
  match response.Messages with
  | some (message :: _) =>
    match lookupAttr message.MessageAttributes "Title" with
    | none => Res.err []
    | some title => do
      logE ("Message title: " ++ jsShow title.StringValue)
      logE ("Message body: " ++ jsShow message.Body)
      provCall (Call.deleteMessage queueUrl message.ReceiptHandle) del
  | _ => logE "No messages in the queue"

/-- The inner `for` over one listing page's `Contents` (src/unnamed/part_000,
lines 169-176). -/
def deleteObjectsInPage (bucketName : String)
    (d : Option String → Except Unit Unit) : List S3Object → Res Unit
  | [] => pure ()
  | o :: rest => do
    provCall (Call.deleteObject bucketName o.Key) (d o.Key)
    logE ("Deleted object: " ++ jsShow o.Key)
    deleteObjectsInPage bucketName d rest

/-- The `if (listResponse.Contents)` guard (src/unnamed/part_000, line 168). -/
def handleContents (bucketName : String)
    (d : Option String → Except Unit Unit) :
    Option (List S3Object) → Res Unit
  | some objs => deleteObjectsInPage bucketName d objs
  | none => pure ()

/-- The `while (isTruncated)` purge loop (src/unnamed/part_000,
lines 157-181). -/
def purgeLoop (bucketName : String) (d : Option String → Except Unit Unit) :
    Option String → List (Except Unit ListObjectsV2Response) → Res Unit
  | token, [] => Res.err [Event.call (Call.listObjectsV2 bucketName token)]
  | token, p :: rest => do
    let listResponse ← provCall (Call.listObjectsV2 bucketName token) p
    handleContents bucketName d listResponse.Contents
    if truthy listResponse.IsTruncated then
      purgeLoop bucketName d listResponse.NextContinuationToken rest
    else
      pure ()

/-- The teardown tail of `deleteResources` (src/unnamed/part_000,
lines 183-196). -/
def terminateAndDelete (instanceId : Option String) (bucketName : String)
    (queueUrl : Option String) (env : DeleteResourcesEnv) : Res Unit := do
  provCall (Call.terminateInstances [instanceId]) env.terminateInstances
  logE ("EC2 instance " ++ jsShow instanceId ++ " termination initiated")
  provCall (Call.deleteBucket bucketName) env.deleteBucket
  logE ("S3 bucket " ++ bucketName ++ " deleted")
  provCall (Call.deleteQueue queueUrl) env.deleteQueue
  logE ("SQS queue " ++ jsShow queueUrl ++ " deleted")

/-- `deleteResources` (src/unnamed/part_000, lines 152-197). -/
def deleteResources (instanceId : Option String) (bucketName : String)
    (queueUrl : Option String) (env : DeleteResourcesEnv) : Res Unit := do
  logE "Deleting resources..."
  purgeLoop bucketName env.deleteObject none env.pages
  terminateAndDelete instanceId bucketName queueUrl env

/-- The body of `main`'s `try` block (src/unnamed/part_000, lines 200-217):
identical to p1.js except the post-teardown wait is 20 seconds, not one
minute. -/
def mainBody (a : String) (env : Env) : Res Unit := do
  let ids ← createResources a env
  let instanceId := ids.1
  let bucketName := ids.2.1
  let queueUrl := ids.2.2
  listResources env.list1
  uploadFileToS3 bucketName env.putObject
  sendMessageToSQS queueUrl env.sendMessage
  checkSQSMessages queueUrl env.check1
  receiveSQSMessage queueUrl env.receive env.deleteMessage
  checkSQSMessages queueUrl env.check2
  logE "Waiting for 10 seconds..."
  sleepE 10000
  deleteResources instanceId bucketName queueUrl env.del
  logE "Waiting for 20 seconds..."
  sleepE 20000
  listResources env.list2

/-- `main` (src/unnamed/part_000, lines 199-221). -/
def main (a : String) (env : Env) : List Event :=
  match mainBody a env with
  | Res.ok es _ => es
  | Res.err es => es ++ [Event.log "An error occurred:"]

end Part000

/-- The object records of one listing page (`Contents`, absent meaning no
objects). -/

def contentsList (r : ListObjectsV2Response) : List S3Object :=
  r.Contents.getD []

/-- A nonempty run of listing responses in which every response but the last
has a truthy truncation flag and the last does not: the shape of the pages a
completed purge loop consumes. -/

def pageChainFinal : List ListObjectsV2Response → Bool
  | [] => false
  | [r] => !truthy r.IsTruncated
  | r :: rest => truthy r.IsTruncated && pageChainFinal rest

/-- The bucket/continuation-token arguments of the `ListObjectsV2` calls in a
trace, in order. -/

def listTokensOf (es : List Event) : List (String × Option String) :=
  es.filterMap fun e => match e with
    | .call (.listObjectsV2 b t) => some (b, t)
    | _ => none

/-- The `ListObjectsV2` calls a purge starting from `token` issues when the
responses are `pages`: the first call carries `token`, and each truncated
response's `NextContinuationToken` is carried by the following call. -/

def chainTokens (b : String) (token : Option String) :
    List ListObjectsV2Response → List (String × Option String)
  | [] => []
  | r :: rest => (b, token) ::
      (if truthy r.IsTruncated then chainTokens b r.NextContinuationToken rest
       else [])

/-- Events a purge may emit: listing calls, individual object deletes, and
logs — in particular no bucket, queue, or instance teardown calls. -/

def isPurgeEvent : Event → Bool
  | .call (.listObjectsV2 _ _) => true
  | .call (.deleteObject _ _) => true
  | .log _ => true
  | _ => false

/-- Provider calls and sleeps of a trace, with the console logs dropped. -/

def callsOf (es : List Event) : List Event :=
  es.filter fun e => match e with
    | .log _ => false
    | _ => true

/-- The messages a receive-call response returned (none for a rejected
call or an absent `Messages` field). -/
def returnedMessages (recv : Except Unit ReceiveMessageResponse) :
    List Message :=
  match recv with
  | .ok resp => resp.Messages.getD []
  | .error _ => []

/-- Whether a trace contains a delete-by-receipt-handle call. -/
def hasDeleteMessageCall (es : List Event) : Bool :=
  es.any fun e => match e with
    | .call (.deleteMessage _ _) => true
    | _ => false

/-- A listing environment whose three responses are present but empty. -/
def emptyListEnv : ListResourcesEnv :=
  ⟨Except.ok ⟨some []⟩, Except.ok ⟨some []⟩, Except.ok ⟨some []⟩⟩

/-- A failure-free environment family: the instance, bucket and queue are
created, the listings return empty collections, the queue round-trip returns
one message carrying a `Title` attribute, and the teardown calls succeed;
the purge pages and per-key delete outcomes stay parameters. -/
def mkHappyEnv (now1 now2 : Nat) (iid qurl nm body rh : String)
    (pages : List (Except Unit ListObjectsV2Response))
    (d : Option String → Except Unit Unit) : Env where
  now1 := now1
  now2 := now2
  runInstances := Except.ok ⟨some [⟨some iid, some ⟨some "running"⟩⟩]⟩
  createBucket := Except.ok ()
  createQueue := Except.ok ⟨some qurl⟩
  list1 := emptyListEnv
  putObject := Except.ok ()
  sendMessage := Except.ok ()
  check1 := Except.ok ⟨some ⟨some nm⟩⟩
  receive := Except.ok ⟨some [⟨some [("Title", ⟨some "String",
    some "test message"⟩)], some body, some rh⟩]⟩
  deleteMessage := Except.ok ()
  check2 := Except.ok ⟨some ⟨some nm⟩⟩
  del := ⟨pages, d, Except.ok (), Except.ok (), Except.ok ()⟩
  list2 := emptyListEnv

/-- An environment whose very first provider call (RunInstances) is
rejected. -/
def envRunFails : Env where
  now1 := 1
  now2 := 2
  runInstances := Except.error ()
  createBucket := Except.error ()
  createQueue := Except.error ()
  list1 := ⟨Except.error (), Except.error (), Except.error ()⟩
  putObject := Except.error ()
  sendMessage := Except.error ()
  check1 := Except.error ()
  receive := Except.error ()
  deleteMessage := Except.error ()
  check2 := Except.error ()
  del := ⟨[], fun _ => Except.error (), Except.error (), Except.error (),
    Except.error ()⟩
  list2 := ⟨Except.error (), Except.error (), Except.error ()⟩

@[simp] theorem Res.bind_eq (x : Res α) (f : α → Res β) :
    x >>= f = Res.bind x f := rfl

@[simp] theorem Res.pure_eq (a : α) : (pure a : Res α) = Res.ok [] a := rfl

@[simp] theorem Res.bind_ok (es : List Event) (a : α) (f : α → Res β) :
    Res.bind (Res.ok es a) f = Res.push es (f a) := rfl

@[simp] theorem Res.bind_err (es : List Event) (f : α → Res β) :
    Res.bind (Res.err es) f = Res.err es := rfl

@[simp] theorem Res.push_ok (es es2 : List Event) (a : α) :
    Res.push es (Res.ok es2 a) = Res.ok (es ++ es2) a := rfl

@[simp] theorem Res.push_err (es es2 : List Event) :
    Res.push es (Res.err es2 : Res α) = Res.err (es ++ es2) := rfl

@[simp] theorem Res.push_push (es1 es2 : List Event) (x : Res α) :
    Res.push es1 (Res.push es2 x) = Res.push (es1 ++ es2) x := by
  cases x <;> simp [Res.push]

@[simp] theorem Res.push_nil (x : Res α) : Res.push [] x = x := by
  cases x <;> simp [Res.push]

@[simp] theorem Res.events_ok (es : List Event) (a : α) :
    (Res.ok es a).events = es := rfl

@[simp] theorem Res.events_err (es : List Event) :
    (Res.err es : Res α).events = es := rfl

@[simp] theorem Res.events_push (es : List Event) (x : Res α) :
    (Res.push es x).events = es ++ x.events := by
  cases x <;> simp [Res.push]

@[simp] theorem provCall_ok (c : Call) (a : α) :
    provCall c (Except.ok a) = Res.ok [Event.call c] a := rfl

@[simp] theorem provCall_err (c : Call) :
    provCall c (Except.error () : Except Unit α) = Res.err [Event.call c] := rfl

@[simp] theorem pageChainFinal_nil : pageChainFinal [] = false := rfl

@[simp] theorem pageChainFinal_singleton (r : ListObjectsV2Response) :
    pageChainFinal [r] = !truthy r.IsTruncated := rfl

@[simp] theorem pageChainFinal_cons_cons (r r' : ListObjectsV2Response)
    (rest : List ListObjectsV2Response) :
    pageChainFinal (r :: r' :: rest) =
      (truthy r.IsTruncated && pageChainFinal (r' :: rest)) := rfl

theorem pageChainFinal_ne_nil {l : List ListObjectsV2Response}
    (h : pageChainFinal l = true) : l ≠ [] := by
  intro he; subst he; simp at h

@[simp] theorem listTokensOf_nil : listTokensOf [] = [] := rfl

@[simp] theorem listTokensOf_cons_list (b : String) (t : Option String)
    (es : List Event) :
    listTokensOf (Event.call (Call.listObjectsV2 b t) :: es) =
      (b, t) :: listTokensOf es := rfl

@[simp] theorem listTokensOf_cons_deleteObject (b : String) (k : Option String)
    (es : List Event) :
    listTokensOf (Event.call (Call.deleteObject b k) :: es) =
      listTokensOf es := rfl

@[simp] theorem listTokensOf_cons_log (s : String) (es : List Event) :
    listTokensOf (Event.log s :: es) = listTokensOf es := rfl

@[simp] theorem listTokensOf_append (es1 es2 : List Event) :
    listTokensOf (es1 ++ es2) = listTokensOf es1 ++ listTokensOf es2 :=
  List.filterMap_append es1 es2 _

@[simp] theorem callsOf_nil : callsOf [] = [] := rfl

@[simp] theorem callsOf_cons_call (c : Call) (es : List Event) :
    callsOf (Event.call c :: es) = Event.call c :: callsOf es := rfl

@[simp] theorem callsOf_cons_log (s : String) (es : List Event) :
    callsOf (Event.log s :: es) = callsOf es := rfl

@[simp] theorem callsOf_cons_sleep (ms : Nat) (es : List Event) :
    callsOf (Event.sleep ms :: es) = Event.sleep ms :: callsOf es := rfl

@[simp] theorem callsOf_append (es1 es2 : List Event) :
    callsOf (es1 ++ es2) = callsOf es1 ++ callsOf es2 := by
  simp [callsOf, List.filter_append]

namespace P1

theorem deleteObjectsInPage_all_purge (b : String)
    (d : Option String → Except Unit Unit) (objs : List S3Object) :
    ((deleteObjectsInPage b d objs).events).all isPurgeEvent = true := by
  induction objs with
  | nil => simp [deleteObjectsInPage]
  | cons o rest ih =>
    cases hd : d o.Key with
    | ok u =>
      cases u
      simp [deleteObjectsInPage, hd, logE, isPurgeEvent, ih]
    | error u =>
      cases u
      simp [deleteObjectsInPage, hd, isPurgeEvent]

theorem deleteObjectsInPage_listTokens (b : String)
    (d : Option String → Except Unit Unit) (objs : List S3Object) :
    listTokensOf ((deleteObjectsInPage b d objs).events) = [] := by
  induction objs with
  | nil => simp [deleteObjectsInPage]
  | cons o rest ih =>
    cases hd : d o.Key with
    | ok u =>
      cases u
      simp [deleteObjectsInPage, hd, logE, ih]
    | error u =>
      cases u
      simp [deleteObjectsInPage, hd]

theorem deleteObjectsInPage_ok_mem (b : String)
    (d : Option String → Except Unit Unit) :
    ∀ (objs : List S3Object) (es : List Event),
      deleteObjectsInPage b d objs = Res.ok es () →
      ∀ o ∈ objs, Event.call (Call.deleteObject b o.Key) ∈ es := by
  intro objs
  induction objs with
  | nil =>
    intro es h o ho
    simp at ho
  | cons o rest ih =>
    intro es h o' ho'
    cases hd : d o.Key with
    | error u =>
      cases u
      simp [deleteObjectsInPage, hd] at h
    | ok u =>
      cases u
      cases hrec : deleteObjectsInPage b d rest with
      | err es2 =>
        simp [deleteObjectsInPage, hd, logE, hrec] at h
      | ok es2 a =>
        cases a
        simp [deleteObjectsInPage, hd, logE, hrec] at h
        subst h
        rcases List.mem_cons.mp ho' with rfl | hm
        · simp
        · have := ih es2 hrec o' hm
          simp [this]

theorem handleContents_all_purge (b : String)
    (d : Option String → Except Unit Unit) (cs : Option (List S3Object)) :
    ((handleContents b d cs).events).all isPurgeEvent = true := by
  cases cs with
  | none => simp [handleContents]
  | some objs => simpa [handleContents] using deleteObjectsInPage_all_purge b d objs

theorem handleContents_listTokens (b : String)
    (d : Option String → Except Unit Unit) (cs : Option (List S3Object)) :
    listTokensOf ((handleContents b d cs).events) = [] := by
  cases cs with
  | none => simp [handleContents]
  | some objs => simpa [handleContents] using deleteObjectsInPage_listTokens b d objs

theorem handleContents_ok_mem (b : String)
    (d : Option String → Except Unit Unit) (cs : Option (List S3Object))
    (es : List Event) (h : handleContents b d cs = Res.ok es ()) :
    ∀ o ∈ cs.getD [], Event.call (Call.deleteObject b o.Key) ∈ es := by
  cases cs with
  | none =>
    intro o ho
    simp at ho
  | some objs =>
    intro o ho
    exact deleteObjectsInPage_ok_mem b d objs es (by simpa [handleContents] using h)
      o (by simpa using ho)

/-- Structure of a successful purge: a nonempty prefix of the available pages
is consumed, every consumed page but the last is truncated and the last is
not, the listing calls carry the continuation tokens forward, and every
object key of a consumed page received an individual delete call. -/
theorem purgeLoop_ok_structure (b : String)
    (d : Option String → Except Unit Unit) :
    ∀ (pages : List (Except Unit ListObjectsV2Response)) (token : Option String)
      (es : List Event),
      purgeLoop b d token pages = Res.ok es () →
      ∃ consumed leftover,
        pages = consumed.map Except.ok ++ leftover ∧
        pageChainFinal consumed = true ∧
        listTokensOf es = chainTokens b token consumed ∧
        ∀ r ∈ consumed, ∀ o ∈ contentsList r,
          Event.call (Call.deleteObject b o.Key) ∈ es := by
  intro pages
  induction pages with
  | nil =>
    intro token es h
    simp [purgeLoop] at h
  | cons p rest ih =>
    intro token es h
    cases p with
    | error u =>
      cases u
      simp [purgeLoop] at h
    | ok r =>
      cases hHC : handleContents b d r.Contents with
      | err es1 =>
        simp [purgeLoop, hHC] at h
      | ok es1 a =>
        cases a
        have hes1 : listTokensOf es1 = [] := by
          have := handleContents_listTokens b d r.Contents
          rw [hHC] at this
          simpa using this
        cases ht : truthy r.IsTruncated with
        | false =>
          simp [purgeLoop, hHC, ht] at h
          subst h
          refine ⟨[r], rest, by simp, by simp [ht], ?_, ?_⟩
          · simp [chainTokens, ht, hes1]
          · intro r' hr' o ho
            rcases List.mem_singleton.mp hr' with rfl
            have := handleContents_ok_mem b d r'.Contents es1 hHC o
              (by simpa [contentsList] using ho)
            simp [this]
        | true =>
          cases hrec : purgeLoop b d r.NextContinuationToken rest with
          | err es2 =>
            simp [purgeLoop, hHC, ht, hrec] at h
          | ok es2 a2 =>
            cases a2
            simp [purgeLoop, hHC, ht, hrec] at h
            subst h
            obtain ⟨consumed, leftover, hpages, hchain, htok, hmem⟩ :=
              ih r.NextContinuationToken es2 hrec
            refine ⟨r :: consumed, leftover, by simp [hpages], ?_, ?_, ?_⟩
            · cases consumed with
              | nil => simp at hchain
              | cons c cs => simp [ht, hchain]
            · simp [chainTokens, ht, hes1, htok]
            · intro r' hr' o ho
              rcases List.mem_cons.mp hr' with rfl | hm
              · have := handleContents_ok_mem b d r'.Contents es1 hHC o
                  (by simpa [contentsList] using ho)
                simp [this]
              · have := hmem r' hm o ho
                simp [this]

end P1

namespace P1

theorem purgeLoop_all_purge (b : String)
    (d : Option String → Except Unit Unit) :
    ∀ (pages : List (Except Unit ListObjectsV2Response)) (token : Option String),
      ((purgeLoop b d token pages).events).all isPurgeEvent = true := by
  intro pages
  induction pages with
  | nil =>
    intro token
    simp [purgeLoop, isPurgeEvent]
  | cons p rest ih =>
    intro token
    cases p with
    | error u =>
      cases u
      simp [purgeLoop, isPurgeEvent]
    | ok r =>
      have h1 := handleContents_all_purge b d r.Contents
      cases hHC : handleContents b d r.Contents with
      | err es1 =>
        rw [hHC] at h1
        simp at h1
        simp [purgeLoop, hHC, isPurgeEvent]
        intro x hx
        exact h1 x hx
      | ok es1 a =>
        cases a
        rw [hHC] at h1
        simp at h1
        cases ht : truthy r.IsTruncated with
        | false =>
          simp [purgeLoop, hHC, ht, isPurgeEvent]
          intro x hx
          exact h1 x hx
        | true =>
          have h2 := ih r.NextContinuationToken
          simp at h2
          simp [purgeLoop, hHC, ht, isPurgeEvent]
          exact ⟨fun x hx => h1 x hx, fun x hx => h2 x hx⟩

end P1

/-- **C1.**  The storage purge routine of `src/p1.js` (`deleteResources`,
entered with `continuationToken = undefined`), when its loop completes,
has consumed a nonempty prefix of the provider's listing responses in which
every page but the last carried a truthy truncation flag and the last did
not; its listing calls carried the continuation token of each truncated
page into the next call; and every object key of every listed page received
an individual delete call. -/
theorem purge_paginates_until_untruncated_and_deletes_every_key
    (b : String) (d : Option String → Except Unit Unit)
    (pages : List (Except Unit ListObjectsV2Response)) (es : List Event)
    (h : P1.purgeLoop b d none pages = Res.ok es ()) :
    ∃ consumed leftover,
      pages = consumed.map Except.ok ++ leftover ∧
      pageChainFinal consumed = true ∧
      listTokensOf es = chainTokens b none consumed ∧
      ∀ r ∈ consumed, ∀ o ∈ contentsList r,
        Event.call (Call.deleteObject b o.Key) ∈ es :=
  P1.purgeLoop_ok_structure b d pages none es h

/-- Witness for C1 at a concrete two-page run: the first page is truncated
with continuation token "tok1" and key "k1", the second is final with key
"k2". -/
theorem purge_paginates_until_untruncated_and_deletes_every_key_witness :
    ∃ consumed leftover,
      ([Except.ok (⟨some [⟨some "k1"⟩], some true, some "tok1"⟩ :
          ListObjectsV2Response),
        Except.ok (⟨some [⟨some "k2"⟩], some false, none⟩ :
          ListObjectsV2Response)] :
        List (Except Unit ListObjectsV2Response)) =
        consumed.map Except.ok ++ leftover ∧
      pageChainFinal consumed = true ∧
      listTokensOf
        [Event.call (Call.listObjectsV2 "b" none),
         Event.call (Call.deleteObject "b" (some "k1")),
         Event.log "Deleted object: k1",
         Event.call (Call.listObjectsV2 "b" (some "tok1")),
         Event.call (Call.deleteObject "b" (some "k2")),
         Event.log "Deleted object: k2"] = chainTokens "b" none consumed ∧
      ∀ r ∈ consumed, ∀ o ∈ contentsList r,
        Event.call (Call.deleteObject "b" o.Key) ∈
          [Event.call (Call.listObjectsV2 "b" none),
           Event.call (Call.deleteObject "b" (some "k1")),
           Event.log "Deleted object: k1",
           Event.call (Call.listObjectsV2 "b" (some "tok1")),
           Event.call (Call.deleteObject "b" (some "k2")),
           Event.log "Deleted object: k2"] :=
  purge_paginates_until_untruncated_and_deletes_every_key "b"
    (fun _ => Except.ok ()) _ _ (by decide)

/-- **C2.**  In `deleteResources` of `src/p1.js`, any bucket-delete call in
the trace comes strictly after a completed purge: the trace decomposes into
the purge's events (which contain no bucket-delete call) followed by the
teardown tail, and the purge completed only because the consumed listing
pages end in one whose truncation flag is not truthy, all earlier ones being
truncated. -/
theorem bucket_delete_only_after_final_page
    (i : Option String) (b : String) (q : Option String)
    (env : DeleteResourcesEnv) (es : List Event)
    (hev : (P1.deleteResources i b q env).events = es)
    (hmem : Event.call (Call.deleteBucket b) ∈ es) :
    ∃ pes tail consumed leftover,
      es = Event.log "Deleting resources..." :: (pes ++ tail) ∧
      P1.purgeLoop b env.deleteObject none env.pages = Res.ok pes () ∧
      Event.call (Call.deleteBucket b) ∉ pes ∧
      env.pages = consumed.map Except.ok ++ leftover ∧
      pageChainFinal consumed = true := by
  have hall := P1.purgeLoop_all_purge b env.deleteObject env.pages none
  cases hp : P1.purgeLoop b env.deleteObject none env.pages with
  | err pes =>
    rw [hp] at hall
    simp at hall
    simp [P1.deleteResources, logE, hp] at hev
    subst hev
    rcases List.mem_cons.mp hmem with he | hm
    · exact absurd he (by simp)
    · have := hall _ hm
      simp [isPurgeEvent] at this
  | ok pes a =>
    cases a
    rw [hp] at hall
    simp at hall
    have hnotin : Event.call (Call.deleteBucket b) ∉ pes := by
      intro hin
      have := hall _ hin
      simp [isPurgeEvent] at this
    obtain ⟨consumed, leftover, h1, h2, _, _⟩ :=
      P1.purgeLoop_ok_structure b env.deleteObject env.pages none pes hp
    refine ⟨pes, (P1.terminateAndDelete i b q env).events, consumed, leftover,
      ?_, ?_, hnotin, h1, h2⟩
    · simp [P1.deleteResources, logE, hp] at hev
      exact hev.symm
    · rfl

/-- Witness for C2 at a concrete single-page run over an empty bucket: the
trace of `deleteResources` contains the bucket-delete call, so it decomposes
as a completed purge followed by the teardown tail. -/
theorem bucket_delete_only_after_final_page_witness :
    ∃ pes tail consumed leftover,
      ([Event.log "Deleting resources...",
        Event.call (Call.listObjectsV2 "b" none),
        Event.call (Call.terminateInstances [some "i"]),
        Event.log "EC2 instance i termination initiated",
        Event.call (Call.deleteBucket "b"),
        Event.log "S3 bucket b deleted",
        Event.call (Call.deleteQueue (some "q")),
        Event.log "SQS queue q deleted"] : List Event) =
        Event.log "Deleting resources..." :: (pes ++ tail) ∧
      P1.purgeLoop "b"
          (DeleteResourcesEnv.deleteObject
            ⟨[Except.ok ⟨none, some false, none⟩], fun _ => Except.ok (),
             Except.ok (), Except.ok (), Except.ok ()⟩) none
          (DeleteResourcesEnv.pages
            ⟨[Except.ok ⟨none, some false, none⟩], fun _ => Except.ok (),
             Except.ok (), Except.ok (), Except.ok ()⟩) = Res.ok pes () ∧
      Event.call (Call.deleteBucket "b") ∉ pes ∧
      DeleteResourcesEnv.pages
          ⟨[Except.ok ⟨none, some false, none⟩], fun _ => Except.ok (),
           Except.ok (), Except.ok (), Except.ok ()⟩ =
        consumed.map Except.ok ++ leftover ∧
      pageChainFinal consumed = true :=
  bucket_delete_only_after_final_page (some "i") "b" (some "q")
    ⟨[Except.ok ⟨none, some false, none⟩], fun _ => Except.ok (),
     Except.ok (), Except.ok (), Except.ok ()⟩ _ (by decide) (by decide)

/-- **C7.**  When the receive call of `receiveSQSMessage` (src/p1.js) comes
back with no messages — the `Messages` field absent or an empty array — the
routine logs that the queue is empty, issues no further provider call, and
completes normally (an `ok` result, not an error). -/
theorem receive_empty_queue_logs_and_stops
    (q : Option String) (recv : Except Unit ReceiveMessageResponse)
    (del : Except Unit Unit) (resp : ReceiveMessageResponse)
    (hok : recv = Except.ok resp)
    (hempty : resp.Messages = none ∨ resp.Messages = some []) :
    P1.receiveSQSMessage q recv del =
      Res.ok [Event.log "Receiving message from SQS...",
        Event.call (Call.receiveMessage q 1),
        Event.log "No messages in the queue"] () := by
  subst hok
  rcases hempty with h | h <;> simp [P1.receiveSQSMessage, logE, h]

/-- Witness for C7: a concrete receive with `Messages` absent. -/
theorem receive_empty_queue_logs_and_stops_witness :
    P1.receiveSQSMessage (some "q") (Except.ok ⟨none⟩) (Except.ok ()) =
      Res.ok [Event.log "Receiving message from SQS...",
        Event.call (Call.receiveMessage (some "q") 1),
        Event.log "No messages in the queue"] () :=
  receive_empty_queue_logs_and_stops (some "q") (Except.ok ⟨none⟩)
    (Except.ok ()) ⟨none⟩ rfl (Or.inl rfl)

/-- **C8.**  For a bucket whose first listing page reports no contents and
`IsTruncated = false`, the purge loop of `deleteResources` (src/p1.js)
issues zero object-delete calls, exits after its single listing call, and
the routine proceeds directly to instance termination, bucket deletion and
queue deletion. -/
theorem empty_bucket_purge_zero_deletes_then_teardown
    (i : Option String) (b : String) (q : Option String)
    (env : DeleteResourcesEnv) (r : ListObjectsV2Response)
    (rest : List (Except Unit ListObjectsV2Response))
    (hpages : env.pages = Except.ok r :: rest)
    (hc : r.Contents = none) (ht : r.IsTruncated = some false)
    (hterm : env.terminateInstances = Except.ok ())
    (hdb : env.deleteBucket = Except.ok ())
    (hdq : env.deleteQueue = Except.ok ()) :
    P1.deleteResources i b q env =
      Res.ok [Event.log "Deleting resources...",
        Event.call (Call.listObjectsV2 b none),
        Event.call (Call.terminateInstances [i]),
        Event.log ("EC2 instance " ++ jsShow i ++ " termination initiated"),
        Event.call (Call.deleteBucket b),
        Event.log ("S3 bucket " ++ b ++ " deleted"),
        Event.call (Call.deleteQueue q),
        Event.log ("SQS queue " ++ jsShow q ++ " deleted")] () := by
  simp [P1.deleteResources, P1.purgeLoop, P1.terminateAndDelete,
    P1.handleContents, logE, hpages, hc, ht, hterm, hdb, hdq, truthy]

/-- Witness for C8 at the concrete empty-bucket environment. -/
theorem empty_bucket_purge_zero_deletes_then_teardown_witness :
    P1.deleteResources (some "i") "b" (some "q")
        ⟨[Except.ok ⟨none, some false, none⟩], fun _ => Except.ok (),
         Except.ok (), Except.ok (), Except.ok ()⟩ =
      Res.ok [Event.log "Deleting resources...",
        Event.call (Call.listObjectsV2 "b" none),
        Event.call (Call.terminateInstances [some "i"]),
        Event.log ("EC2 instance " ++ jsShow (some "i") ++
          " termination initiated"),
        Event.call (Call.deleteBucket "b"),
        Event.log ("S3 bucket " ++ "b" ++ " deleted"),
        Event.call (Call.deleteQueue (some "q")),
        Event.log ("SQS queue " ++ jsShow (some "q") ++ " deleted")] () :=
  empty_bucket_purge_zero_deletes_then_teardown (some "i") "b" (some "q")
    ⟨[Except.ok ⟨none, some false, none⟩], fun _ => Except.ok (),
     Except.ok (), Except.ok (), Except.ok ()⟩
    ⟨none, some false, none⟩ [] rfl rfl rfl rfl rfl rfl

/-- **C9.**  `receiveSQSMessage` (src/p1.js) reads
`message.MessageAttributes.Title.StringValue` unguarded: if the receive call
returns a message whose attribute map is absent or lacks a `Title` key, the
routine throws right after the receive call, before any delete-by-receipt-
handle call is issued; conversely, a run that completes normally with a
returned message implies that the message carried a `Title` attribute. -/
theorem missing_title_throws_before_delete
    (q : Option String) (recv : Except Unit ReceiveMessageResponse)
    (del : Except Unit Unit) :
    (∀ (resp : ReceiveMessageResponse) (m : Message) (ms : List Message),
      recv = Except.ok resp → resp.Messages = some (m :: ms) →
      lookupAttr m.MessageAttributes "Title" = none →
      P1.receiveSQSMessage q recv del =
        Res.err [Event.log "Receiving message from SQS...",
          Event.call (Call.receiveMessage q 1)]) ∧
    (∀ (es : List Event) (resp : ReceiveMessageResponse) (m : Message)
        (ms : List Message),
      P1.receiveSQSMessage q recv del = Res.ok es () →
      recv = Except.ok resp → resp.Messages = some (m :: ms) →
      lookupAttr m.MessageAttributes "Title" ≠ none) := by
  constructor
  · intro resp m ms hok hmsgs htitle
    subst hok
    simp [P1.receiveSQSMessage, logE, hmsgs, htitle]
  · intro es resp m ms hrun hok hmsgs htitle
    subst hok
    simp [P1.receiveSQSMessage, logE, hmsgs, htitle] at hrun

/-- Witness for C9: a concrete message with no attribute map throws before
the delete call. -/
theorem missing_title_throws_before_delete_witness :
    P1.receiveSQSMessage (some "q")
        (Except.ok ⟨some [⟨none, some "body", some "rh"⟩]⟩) (Except.ok ()) =
      Res.err [Event.log "Receiving message from SQS...",
        Event.call (Call.receiveMessage (some "q") 1)] :=
  (missing_title_throws_before_delete (some "q")
      (Except.ok ⟨some [⟨none, some "body", some "rh"⟩]⟩) (Except.ok ())).1
    ⟨some [⟨none, some "body", some "rh"⟩]⟩ ⟨none, some "body", some "rh"⟩ []
    rfl rfl rfl

/-- **C10.**  The purge loop's exit test is JS truthiness of `IsTruncated`,
not a comparison with `false`: a listing response whose truncation flag is
absent (`undefined`) is falsy exactly like an explicit `false`, and on either
the loop stops after handling that page's contents — no further listing call
is issued and the remaining responses are never consumed. -/
theorem purge_exits_on_absent_or_false_truncation
    (b : String) (d : Option String → Except Unit Unit)
    (token : Option String) (r : ListObjectsV2Response)
    (rest : List (Except Unit ListObjectsV2Response))
    (ht : r.IsTruncated = none ∨ r.IsTruncated = some false) :
    truthy r.IsTruncated = false ∧
    P1.purgeLoop b d token (Except.ok r :: rest) =
      Res.push [Event.call (Call.listObjectsV2 b token)]
        (P1.handleContents b d r.Contents) := by
  have htf : truthy r.IsTruncated = false := by
    rcases ht with h | h <;> simp [h, truthy]
  refine ⟨htf, ?_⟩
  cases hHC : P1.handleContents b d r.Contents with
  | ok es1 a =>
    cases a
    simp [P1.purgeLoop, hHC, htf]
  | err es1 =>
    simp [P1.purgeLoop, hHC, htf]

/-- Witness for C10: a concrete page with `IsTruncated` absent ends the loop
even though further responses are available. -/
theorem purge_exits_on_absent_or_false_truncation_witness :
    truthy (ListObjectsV2Response.IsTruncated ⟨none, none, none⟩) = false ∧
    P1.purgeLoop "b" (fun _ => Except.ok ()) none
        [Except.ok ⟨none, none, none⟩,
         Except.ok ⟨none, some true, none⟩] =
      Res.push [Event.call (Call.listObjectsV2 "b" none)]
        (P1.handleContents "b" (fun _ => Except.ok ())
          (ListObjectsV2Response.Contents ⟨none, none, none⟩)) :=
  purge_exits_on_absent_or_false_truncation "b" (fun _ => Except.ok ()) none
    ⟨none, none, none⟩ [Except.ok ⟨none, some true, none⟩] (Or.inl rfl)

/-- Counterexample to C3 as stated: a receive call that returns one message
whose attribute map is absent.  The receive returned a message, yet the run
of `receiveSQSMessage` issues no delete-by-receipt-handle call (it throws on
`MessageAttributes.Title` first), refuting the claimed "if and only if". -/
theorem receive_delete_iff_counterexample :
    (returnedMessages
        (Except.ok ⟨some [⟨none, some "body", some "rh"⟩]⟩)).length = 1 ∧
    hasDeleteMessageCall
        ((P1.receiveSQSMessage (some "q")
          (Except.ok ⟨some [⟨none, some "body", some "rh"⟩]⟩)
          (Except.ok ())).events) = false := by
  decide

/-- **C3 (amended).**  In `receiveSQSMessage` (src/p1.js), a
delete-by-receipt-handle call is issued if and only if the preceding receive
call succeeded with at least one message AND the lookup of that message's
`Title` attribute succeeds; when issued, the delete call carries the
returned message's receipt handle. -/
theorem receive_delete_iff_message_with_title
    (q : Option String) (recv : Except Unit ReceiveMessageResponse)
    (del : Except Unit Unit) :
    (hasDeleteMessageCall ((P1.receiveSQSMessage q recv del).events) = true ↔
      ∃ resp m ms, recv = Except.ok resp ∧ resp.Messages = some (m :: ms) ∧
        lookupAttr m.MessageAttributes "Title" ≠ none) ∧
    (∀ rh, Event.call (Call.deleteMessage q rh) ∈
        (P1.receiveSQSMessage q recv del).events →
      ∃ resp m ms, recv = Except.ok resp ∧ resp.Messages = some (m :: ms) ∧
        rh = m.ReceiptHandle) := by
  cases recv with
  | error u =>
    cases u
    constructor
    · constructor
      · intro h
        simp [P1.receiveSQSMessage, logE, hasDeleteMessageCall] at h
      · rintro ⟨resp, m, ms, heq, _, _⟩
        simp at heq
    · intro rh hmem
      simp [P1.receiveSQSMessage, logE] at hmem
  | ok resp =>
    cases hm : resp.Messages with
    | none =>
      constructor
      · constructor
        · intro h
          simp [P1.receiveSQSMessage, logE, hasDeleteMessageCall, hm] at h
        · rintro ⟨resp2, m, ms, heq, hms, _⟩
          simp at heq
          subst heq
          rw [hm] at hms
          simp at hms
      · intro rh hmem
        simp [P1.receiveSQSMessage, logE, hm] at hmem
    | some msgs =>
      cases msgs with
      | nil =>
        constructor
        · constructor
          · intro h
            simp [P1.receiveSQSMessage, logE, hasDeleteMessageCall, hm] at h
          · rintro ⟨resp2, m, ms, heq, hms, _⟩
            simp at heq
            subst heq
            rw [hm] at hms
            simp at hms
        · intro rh hmem
          simp [P1.receiveSQSMessage, logE, hm] at hmem
      | cons m ms =>
        cases htitle : lookupAttr m.MessageAttributes "Title" with
        | none =>
          constructor
          · constructor
            · intro h
              simp [P1.receiveSQSMessage, logE, hasDeleteMessageCall, hm,
                htitle] at h
            · rintro ⟨resp2, m2, ms2, heq, hms, htitle2⟩
              simp at heq
              subst heq
              rw [hm] at hms
              simp at hms
              exact absurd (hms.1 ▸ htitle) htitle2
          · intro rh hmem
            simp [P1.receiveSQSMessage, logE, hm, htitle] at hmem
        | some title =>
          constructor
          · constructor
            · intro _
              exact ⟨resp, m, ms, rfl, hm, by simp [htitle]⟩
            · intro _
              cases del with
              | ok u =>
                cases u
                simp [P1.receiveSQSMessage, logE, hasDeleteMessageCall, hm,
                  htitle]
              | error u =>
                cases u
                simp [P1.receiveSQSMessage, logE, hasDeleteMessageCall, hm,
                  htitle]
          · intro rh hmem
            refine ⟨resp, m, ms, rfl, hm, ?_⟩
            cases del with
            | ok u =>
              cases u
              simp [P1.receiveSQSMessage, logE, hm, htitle] at hmem
              exact hmem
            | error u =>
              cases u
              simp [P1.receiveSQSMessage, logE, hm, htitle] at hmem
              exact hmem

/-- Witness for the amended C3 at a concrete message that carries a `Title`
attribute: the delete call is issued and carries the message's receipt
handle. -/
theorem receive_delete_iff_message_with_title_witness :
    hasDeleteMessageCall
        ((P1.receiveSQSMessage (some "q")
          (Except.ok ⟨some [⟨some [("Title", ⟨some "String", some "t"⟩)],
            some "body", some "rh"⟩]⟩)
          (Except.ok ())).events) = true ∧
    (∃ resp m ms,
      (Except.ok (⟨some [⟨some [("Title", ⟨some "String", some "t"⟩)],
          some "body", some "rh"⟩]⟩ : ReceiveMessageResponse) :
        Except Unit ReceiveMessageResponse) = Except.ok resp ∧
      resp.Messages = some (m :: ms) ∧ some "rh" = m.ReceiptHandle) :=
  ⟨(receive_delete_iff_message_with_title (some "q")
      (Except.ok ⟨some [⟨some [("Title", ⟨some "String", some "t"⟩)],
        some "body", some "rh"⟩]⟩) (Except.ok ())).1.mpr
      ⟨⟨some [⟨some [("Title", ⟨some "String", some "t"⟩)],
          some "body", some "rh"⟩]⟩,
        ⟨some [("Title", ⟨some "String", some "t"⟩)], some "body", some "rh"⟩,
        [], rfl, rfl, by decide⟩,
   (receive_delete_iff_message_with_title (some "q")
      (Except.ok ⟨some [⟨some [("Title", ⟨some "String", some "t"⟩)],
        some "body", some "rh"⟩]⟩) (Except.ok ())).2 (some "rh") (by decide)⟩

/-- **C5.**  Every failure surfaces to the single top-level handler of
`main` (src/p1.js), which appends exactly one generic error log and nothing
else — no rollback or cleanup call follows an error; when nothing fails no
error log appears.  In particular a rejected object-delete inside the purge
loop aborts `deleteObjectsInPage` at that call, and a failed purge aborts
`deleteResources` before any terminate/bucket-delete/queue-delete call (its
error trace holds only listing calls, object-delete calls and logs). -/
theorem single_top_level_handler_no_rollback :
    (∀ (a : String) (env : Env) (es : List Event),
      P1.mainBody a env = Res.err es →
      P1.main a env = es ++ [Event.log "An error occurred:"]) ∧
    (∀ (a : String) (env : Env) (es : List Event),
      P1.mainBody a env = Res.ok es () →
      P1.main a env = es) ∧
    (∀ (i : Option String) (b : String) (q : Option String)
        (env : DeleteResourcesEnv) (pes : List Event),
      P1.purgeLoop b env.deleteObject none env.pages = Res.err pes →
      P1.deleteResources i b q env =
        Res.err (Event.log "Deleting resources..." :: pes) ∧
      ∀ e ∈ pes, isPurgeEvent e = true) ∧
    (∀ (b : String) (d : Option String → Except Unit Unit)
        (o : S3Object) (rest : List S3Object),
      d o.Key = Except.error () →
      P1.deleteObjectsInPage b d (o :: rest) =
        Res.err [Event.call (Call.deleteObject b o.Key)]) := by
  refine ⟨?_, ?_, ?_, ?_⟩
  · intro a env es h
    simp [P1.main, h]
  · intro a env es h
    simp [P1.main, h]
  · intro i b q env pes hp
    constructor
    · simp [P1.deleteResources, logE, hp]
    · intro e he
      have hall := P1.purgeLoop_all_purge b env.deleteObject env.pages none
      rw [hp] at hall
      simp at hall
      exact hall e he
  · intro b d o rest hd
    simp [P1.deleteObjectsInPage, hd]

/-- Witness for C5: the four parts applied at concrete inputs — a run whose
first call is rejected gains exactly the generic error log, a failure-free
run gains none, a purge whose first object delete is rejected aborts
`deleteResources` with only purge events in its trace, and the rejected
delete aborts the page loop at that call. -/
theorem single_top_level_handler_no_rollback_witness :
    P1.main "a" envRunFails =
      [Event.log "Creating resources...",
       Event.call (Call.runInstances "a")] ++
      [Event.log "An error occurred:"] ∧
    P1.main "a" (mkHappyEnv 1 2 "i" "qu" "0" "bd" "rh"
        [Except.ok ⟨none, some false, none⟩] (fun _ => Except.ok ())) =
      [Event.log "Creating resources...",
       Event.call (Call.runInstances "a"),
       Event.log "EC2 instance created with ID: i",
       Event.call (Call.createBucket "my-test-bucket-1"),
       Event.log "S3 bucket created: my-test-bucket-1",
       Event.call (Call.createQueue "my-test-queue-2"),
       Event.log "SQS queue created: qu",
       Event.log "Resources created, waiting for 1 minute...",
       Event.sleep 60000,
       Event.log "Listing resources...",
       Event.call Call.describeInstances,
       Event.log "EC2 Instances:",
       Event.call Call.listBuckets,
       Event.log "S3 Buckets:",
       Event.call Call.listQueues,
       Event.log "SQS Queues:",
       Event.log "Uploading file to S3...",
       Event.call (Call.putObject "my-test-bucket-1" "CSE546test.txt" ""),
       Event.log "File uploaded to S3",
       Event.log "Sending message to SQS...",
       Event.call (Call.sendMessage (some "qu") "This is a test message"
         "test message"),
       Event.log "Message sent to SQS",
       Event.call (Call.getQueueAttributes (some "qu")),
       Event.log "Number of messages in SQS queue: 0",
       Event.log "Receiving message from SQS...",
       Event.call (Call.receiveMessage (some "qu") 1),
       Event.log "Message title: test message",
       Event.log "Message body: bd",
       Event.call (Call.deleteMessage (some "qu") (some "rh")),
       Event.call (Call.getQueueAttributes (some "qu")),
       Event.log "Number of messages in SQS queue: 0",
       Event.log "Waiting for 10 seconds...",
       Event.sleep 10000,
       Event.log "Deleting resources...",
       Event.call (Call.listObjectsV2 "my-test-bucket-1" none),
       Event.call (Call.terminateInstances [some "i"]),
       Event.log "EC2 instance i termination initiated",
       Event.call (Call.deleteBucket "my-test-bucket-1"),
       Event.log "S3 bucket my-test-bucket-1 deleted",
       Event.call (Call.deleteQueue (some "qu")),
       Event.log "SQS queue qu deleted",
       Event.log "Waiting for 1 minute...",
       Event.sleep 60000,
       Event.log "Listing resources...",
       Event.call Call.describeInstances,
       Event.log "EC2 Instances:",
       Event.call Call.listBuckets,
       Event.log "S3 Buckets:",
       Event.call Call.listQueues,
       Event.log "SQS Queues:"] ∧
    (P1.deleteResources (some "i") "b" (some "q")
        ⟨[Except.ok ⟨some [⟨some "k"⟩], some true, some "t"⟩],
         fun _ => Except.error (), Except.ok (), Except.ok (),
         Except.ok ()⟩ =
      Res.err (Event.log "Deleting resources..." ::
        [Event.call (Call.listObjectsV2 "b" none),
         Event.call (Call.deleteObject "b" (some "k"))]) ∧
      ∀ e ∈ [Event.call (Call.listObjectsV2 "b" none),
             Event.call (Call.deleteObject "b" (some "k"))],
        isPurgeEvent e = true) ∧
    P1.deleteObjectsInPage "b" (fun _ => Except.error ())
        [⟨some "k"⟩] =
      Res.err [Event.call (Call.deleteObject "b" (some "k"))] :=
  ⟨single_top_level_handler_no_rollback.1 "a" envRunFails _ (by decide),
   single_top_level_handler_no_rollback.2.1 "a"
     (mkHappyEnv 1 2 "i" "qu" "0" "bd" "rh"
       [Except.ok ⟨none, some false, none⟩] (fun _ => Except.ok ())) _
     (by decide),
   single_top_level_handler_no_rollback.2.2.1 (some "i") "b" (some "q")
     ⟨[Except.ok ⟨some [⟨some "k"⟩], some true, some "t"⟩],
      fun _ => Except.error (), Except.ok (), Except.ok (), Except.ok ()⟩ _
     (by decide),
   single_top_level_handler_no_rollback.2.2.2 "b" (fun _ => Except.error ())
     ⟨some "k"⟩ [] rfl⟩

/-- **C6.**  On a failure-free run (the `mkHappyEnv` family: all calls
succeed, the listings are empty, the queue round-trip returns one message
with a `Title` attribute, and the purge completes on the given pages),
`main` of `src/p1.js` issues exactly: create instance, create bucket,
create queue, fixed delay, the three listing calls, one object upload, one
message send, a queue-depth check, receive then delete of one message, a
second depth check, fixed delay, the purge's calls, instance termination,
bucket deletion, queue deletion, fixed delay, and the three final listing
calls — teardown referencing exactly the identifiers returned at creation. -/
theorem main_happy_path_call_sequence
    (a : String) (now1 now2 : Nat) (iid qurl nm body rh : String)
    (pages : List (Except Unit ListObjectsV2Response))
    (d : Option String → Except Unit Unit) (pes : List Event)
    (hp : P1.purgeLoop ("my-test-bucket-" ++ toString now1) d none pages =
      Res.ok pes ()) :
    callsOf (P1.main a (mkHappyEnv now1 now2 iid qurl nm body rh pages d)) =
      [Event.call (Call.runInstances a),
       Event.call (Call.createBucket ("my-test-bucket-" ++ toString now1)),
       Event.call (Call.createQueue ("my-test-queue-" ++ toString now2)),
       Event.sleep 60000,
       Event.call Call.describeInstances,
       Event.call Call.listBuckets,
       Event.call Call.listQueues,
       Event.call (Call.putObject ("my-test-bucket-" ++ toString now1)
         "CSE546test.txt" ""),
       Event.call (Call.sendMessage (some qurl) "This is a test message"
         "test message"),
       Event.call (Call.getQueueAttributes (some qurl)),
       Event.call (Call.receiveMessage (some qurl) 1),
       Event.call (Call.deleteMessage (some qurl) (some rh)),
       Event.call (Call.getQueueAttributes (some qurl)),
       Event.sleep 10000] ++
      callsOf pes ++
      [Event.call (Call.terminateInstances [some iid]),
       Event.call (Call.deleteBucket ("my-test-bucket-" ++ toString now1)),
       Event.call (Call.deleteQueue (some qurl)),
       Event.sleep 60000,
       Event.call Call.describeInstances,
       Event.call Call.listBuckets,
       Event.call Call.listQueues] := by
  simp [P1.main, P1.mainBody, P1.createResources, P1.listResources,
    P1.logReservations, P1.uploadFileToS3, P1.sendMessageToSQS,
    P1.checkSQSMessages, P1.receiveSQSMessage, P1.deleteResources,
    P1.terminateAndDelete, mkHappyEnv, emptyListEnv, logE, sleepE,
    lookupAttr, List.lookup, hp]

/-- Witness for C6 at a concrete failure-free run whose purge consumes one
final page holding key "k1". -/
theorem main_happy_path_call_sequence_witness :
    callsOf (P1.main "a" (mkHappyEnv 1 2 "i" "qu" "0" "bd" "rh"
        [Except.ok ⟨some [⟨some "k1"⟩], some false, none⟩]
        (fun _ => Except.ok ()))) =
      [Event.call (Call.runInstances "a"),
       Event.call (Call.createBucket ("my-test-bucket-" ++ toString 1)),
       Event.call (Call.createQueue ("my-test-queue-" ++ toString 2)),
       Event.sleep 60000,
       Event.call Call.describeInstances,
       Event.call Call.listBuckets,
       Event.call Call.listQueues,
       Event.call (Call.putObject ("my-test-bucket-" ++ toString 1)
         "CSE546test.txt" ""),
       Event.call (Call.sendMessage (some "qu") "This is a test message"
         "test message"),
       Event.call (Call.getQueueAttributes (some "qu")),
       Event.call (Call.receiveMessage (some "qu") 1),
       Event.call (Call.deleteMessage (some "qu") (some "rh")),
       Event.call (Call.getQueueAttributes (some "qu")),
       Event.sleep 10000] ++
      callsOf
        [Event.call (Call.listObjectsV2 "my-test-bucket-1" none),
         Event.call (Call.deleteObject "my-test-bucket-1" (some "k1")),
         Event.log "Deleted object: k1"] ++
      [Event.call (Call.terminateInstances [some "i"]),
       Event.call (Call.deleteBucket ("my-test-bucket-" ++ toString 1)),
       Event.call (Call.deleteQueue (some "qu")),
       Event.sleep 60000,
       Event.call Call.describeInstances,
       Event.call Call.listBuckets,
       Event.call Call.listQueues] :=
  main_happy_path_call_sequence "a" 1 2 "i" "qu" "0" "bd" "rh"
    [Except.ok ⟨some [⟨some "k1"⟩], some false, none⟩]
    (fun _ => Except.ok ())
    [Event.call (Call.listObjectsV2 "my-test-bucket-1" none),
     Event.call (Call.deleteObject "my-test-bucket-1" (some "k1")),
     Event.log "Deleted object: k1"]
    (by decide)

/-- Counterexample to C4 as stated: with the AMI constant equated and one
fixed failure-free sequence of provider responses, the two scripts produce
different traces — after teardown p1.js logs "Waiting for 1 minute..." and
sleeps 60000 ms where part_000 logs "Waiting for 20 seconds..." and sleeps
20000 ms. -/
theorem scripts_identical_counterexample :
    P1.main "a" (mkHappyEnv 1 2 "i" "qu" "0" "bd" "rh"
        [Except.ok ⟨none, some false, none⟩] (fun _ => Except.ok ())) ≠
      Part000.main "a" (mkHappyEnv 1 2 "i" "qu" "0" "bd" "rh"
        [Except.ok ⟨none, some false, none⟩] (fun _ => Except.ok ())) := by
  decide

theorem deleteObjectsInPage_eq (b : String)
    (d : Option String → Except Unit Unit) (objs : List S3Object) :
    P1.deleteObjectsInPage b d objs = Part000.deleteObjectsInPage b d objs := by
  induction objs with
  | nil => rfl
  | cons o rest ih =>
    simp [P1.deleteObjectsInPage, Part000.deleteObjectsInPage, ih]

theorem handleContents_eq (b : String)
    (d : Option String → Except Unit Unit) (cs : Option (List S3Object)) :
    P1.handleContents b d cs = Part000.handleContents b d cs := by
  cases cs with
  | none => rfl
  | some objs =>
    simp [P1.handleContents, Part000.handleContents, deleteObjectsInPage_eq]

theorem purgeLoop_eq (b : String) (d : Option String → Except Unit Unit) :
    ∀ (pages : List (Except Unit ListObjectsV2Response))
      (token : Option String),
      P1.purgeLoop b d token pages = Part000.purgeLoop b d token pages := by
  intro pages
  induction pages with
  | nil => intro token; rfl
  | cons p rest ih =>
    intro token
    cases p with
    | error u => cases u; rfl
    | ok r =>
      simp [P1.purgeLoop, Part000.purgeLoop, handleContents_eq, ih]

/-- **C4 (amended).**  Once the AMI constant is equated, the two scripts'
`createResources`, `uploadFileToS3`, `sendMessageToSQS`, `checkSQSMessages`,
`receiveSQSMessage` and `deleteResources` routines are functionally
identical — the same trace for every sequence of provider responses.  The
scripts as wholes are not: `listResources` differs (p1.js prints only
running instances and tolerates absent listing fields via optional chaining,
part_000 prints every instance and throws on an absent field) and `main`'s
post-teardown wait differs (60 s vs 20 s). -/
theorem scripts_agree_outside_listing_and_final_wait :
    (∀ (a : String) (env : Env),
      P1.createResources a env = Part000.createResources a env) ∧
    (∀ (b : String) (r : Except Unit Unit),
      P1.uploadFileToS3 b r = Part000.uploadFileToS3 b r) ∧
    (∀ (q : Option String) (r : Except Unit Unit),
      P1.sendMessageToSQS q r = Part000.sendMessageToSQS q r) ∧
    (∀ (q : Option String) (r : Except Unit GetQueueAttributesResponse),
      P1.checkSQSMessages q r = Part000.checkSQSMessages q r) ∧
    (∀ (q : Option String) (recv : Except Unit ReceiveMessageResponse)
        (del : Except Unit Unit),
      P1.receiveSQSMessage q recv del =
        Part000.receiveSQSMessage q recv del) ∧
    (∀ (i : Option String) (b : String) (q : Option String)
        (env : DeleteResourcesEnv),
      P1.deleteResources i b q env = Part000.deleteResources i b q env) :=
  ⟨fun _ _ => rfl, fun _ _ => rfl, fun _ _ => rfl, fun _ _ => rfl,
   fun _ _ _ => rfl,
   fun i b q env => by
    simp [P1.deleteResources, Part000.deleteResources,
      P1.terminateAndDelete, Part000.terminateAndDelete, purgeLoop_eq]⟩
